import Mathlib

/-!
Verification of the Conversation State Synchronizer of `src/app/page.tsx`
(the Jhimki chat widget).

The source is a React client component.  The parts with real logic are:

* the storage adapter `loadMessagesFromStorage` / `saveMessagesToStorage`
  over a single fixed `localStorage` key;
* the `Chat` component's state: `durations`, `welcomeShownRef`,
  `initialMessages` (frozen at first render), the `useChat` transcript,
  and its handlers and effects (mount effect, autosave effect, welcome
  effect, `handleDurationChange`, `clearChat`).

We embed these as pure Lean functions.  Browser storage is modelled by a
`StorageEnv`: whether a `window` object exists, whether the underlying
read or write throws, and the content of the single slot.  The stored
text is abstracted by what `JSON.parse` does to it: either it parses to
a record whose `messages` and `durations` fields are each present or
absent (constructor `jsonRecord`), or parsing throws (constructor
`notJson`, e.g. the literal text "not-json").  `JSON.stringify` of a
record always produces text that parses back to the same record, which
is why `saveMessagesToStorage` stores a `jsonRecord` with both fields
present.

The component lifecycle is embedded as a state machine: `mount`
constructs the state a fully bootstrapped component has (render-time
load, `useChat` seeding, and the mount effect), and `step` applies one
of the observable operations (the welcome effect body, a duration
update, the autosave effect, a transcript update from the streaming
engine, or `clearChat`).
-/

namespace Jhimki

/-- The role field of a UIMessage: "user", "assistant" or "system". -/
inductive Role where
  | user
  | assistant
  | system
deriving DecidableEq, Repr

/-- A content part of a UIMessage.  The code only ever constructs parts
of type "text"; parts restored from storage are carried through
structurally. -/
inductive Part where
  | text (content : String)
deriving DecidableEq, Repr

/-- A message of the transcript: `id`, `role` and ordered `parts`,
mirroring the `UIMessage` shape the component persists. -/
structure UIMessage where
  id : String
  role : Role
  parts : List Part
deriving DecidableEq, Repr

/-- A JavaScript object mapping message ids to numbers
(`Record<string, number>`), modelled as an association list in key
insertion order. -/
abbrev DurMap : Type := List (String × Int)

/-- The `StorageData` type of the source: the persisted record. -/
structure StorageData where
  messages : List UIMessage
  durations : DurMap
deriving DecidableEq, Repr

/-- The text stored in the `localStorage` slot, abstracted by its
`JSON.parse` behaviour: `jsonRecord messages? durations?` stands for
text that parses to an object whose two fields are each present or
absent, and `notJson raw` stands for text on which `JSON.parse`
throws (such as the literal text "not-json"). -/
inductive StoredBlob where
  | jsonRecord (messages? : Option (List UIMessage)) (durations? : Option DurMap)
  | notJson (raw : String)
deriving DecidableEq, Repr

/-- The browser environment the storage adapter runs in: whether
`window` is defined, whether `localStorage.getItem` or
`localStorage.setItem` throws, and the content of the slot under the
fixed key "chat-messages" (`none` when the key is absent). -/
structure StorageEnv where
  hasWindow : Bool
  readFails : Bool
  writeFails : Bool
  slot : Option StoredBlob
deriving DecidableEq, Repr

/-- The empty record returned on every load failure. -/
def emptyRecord : StorageData := { messages := [], durations := [] }

/-- Embedding of `loadMessagesFromStorage`: returns the empty record
when `window` is undefined, when the key is absent, when the read
throws, or when parsing throws; otherwise defaults each missing field
independently, as `parsed.messages || []` and
`parsed.durations || \x7b\x7d` do. -/
def loadMessagesFromStorage (env : StorageEnv) : StorageData :=
  if env.hasWindow = false then emptyRecord
  else if env.readFails then emptyRecord
  else
    match env.slot with
    | none => emptyRecord
    | some (.notJson _) => emptyRecord
    | some (.jsonRecord messages? durations?) =>
        { messages := messages?.getD [], durations := durations?.getD [] }

/-- Embedding of `saveMessagesToStorage`: a no-op when `window` is
undefined or the write throws (the error is logged and swallowed);
otherwise overwrites the slot with the serialized record, whose two
fields are both present. -/
def saveMessagesToStorage (messages : List UIMessage) (durations : DurMap)
    (env : StorageEnv) : StorageEnv :=
  if env.hasWindow = false then env
  else if env.writeFails then env
  else { env with slot := some (.jsonRecord (some messages) (some durations)) }

/-- Modelled from the spec: the fixed welcome string `WELCOME_MESSAGE`
imported from "@/config", a file not included under `src/`.  Its exact
text does not affect the synchronizer logic, so it is a fixed constant
here. -/
def WELCOME_MESSAGE : String := "Welcome to Jhimki!"

/-- The welcome message the welcome effect synthesizes: id derived from
the current time, assistant role, one text part with the fixed welcome
string. -/
def welcomeMessage (now : Nat) : UIMessage :=
  { id := "welcome-" ++ toString now
    role := .assistant
    parts := [.text WELCOME_MESSAGE] }

/-- JavaScript object spread with a computed key,
`(\x7b...prev, [key]: duration\x7d)`: if the key is already present its
value is replaced in place, otherwise the new entry is appended. -/
def spreadSet (prev : DurMap) (key : String) (value : Int) : DurMap :=
  if (List.lookup key prev).isSome then
    prev.map (fun p => if p.1 = key then (key, value) else p)
  else
    prev ++ [(key, value)]

/-- Embedding of `handleDurationChange`: updates the duration map via
`setDurations(prev => (\x7b...prev, [key]: duration\x7d))`. -/
def handleDurationChange (prev : DurMap) (key : String) (duration : Int) : DurMap :=
  spreadSet prev key duration

/-- The per-process state of the `Chat` component: the storage
environment, the frozen `initialMessages` (a `useState` initialized at
first render and never set again), the live transcript owned by
`useChat`, the `durations` state, the `welcomeShownRef` flag, and the
`isClient` flag set by the mount effect. -/
structure ChatState where
  env : StorageEnv
  initialMessages : List UIMessage
  messages : List UIMessage
  durations : DurMap
  welcomeShown : Bool
  isClient : Bool
deriving DecidableEq, Repr

/-- The state after bootstrap: the render-time load
(`typeof window !== "undefined" ? loadMessagesFromStorage() : empty`)
seeds `initialMessages` and the `useChat` transcript, and the mount
effect then sets `isClient` to true, `durations` to the stored
durations and the transcript to the stored messages.
`welcomeShownRef` starts false. -/
def mount (env : StorageEnv) : ChatState :=
  let stored := if env.hasWindow then loadMessagesFromStorage env else emptyRecord
  { env := env
    initialMessages := stored.messages
    messages := stored.messages
    durations := stored.durations
    welcomeShown := false
    isClient := true }

/-- Embedding of `clearChat`: empties the transcript and the duration
map, persists the empty record, and returns the success toast text
shown to the user. -/
def clearChat (s : ChatState) : ChatState × String :=
  ({ s with
      messages := []
      durations := []
      env := saveMessagesToStorage [] [] s.env },
    "Chat cleared")

/-- The observable operations on a mounted `Chat` component: a run of
the welcome effect (with the current time for the id), a duration
update, a run of the autosave effect, a transcript update pushed by the
streaming chat engine, and the clear-chat button. -/
inductive Op where
  | ensureWelcome (now : Nat)
  | recordDuration (key : String) (duration : Int)
  | autosave
  | engineUpdate (ms : List UIMessage)
  | clearChat
deriving DecidableEq, Repr

/-- One operation on the component state, translated from the
corresponding effect or handler of `Chat`:

* `ensureWelcome now`: the welcome effect body — when `isClient` holds,
  `initialMessages` is empty and `welcomeShownRef.current` is false, it
  sets the transcript to the single synthesized welcome message, saves
  that transcript with an empty duration map, and sets the flag;
  otherwise it does nothing;
* `recordDuration key duration`: `handleDurationChange`;
* `autosave`: the save effect, which persists the current transcript
  and duration map when `isClient` holds;
* `engineUpdate ms`: the streaming engine replacing/growing the
  `useChat` transcript (e.g. after `sendMessage`);
* `clearChat`: the clear-chat handler (toast discarded here). -/
def step (s : ChatState) : Op → ChatState
  | .ensureWelcome now =>
      if s.isClient ∧ s.initialMessages = [] ∧ s.welcomeShown = false then
        { s with
            messages := [welcomeMessage now]
            env := saveMessagesToStorage [welcomeMessage now] [] s.env
            welcomeShown := true }
      else s
  | .recordDuration key duration =>
      { s with durations := handleDurationChange s.durations key duration }
  | .autosave =>
      if s.isClient then
        { s with env := saveMessagesToStorage s.messages s.durations s.env }
      else s
  | .engineUpdate ms => { s with messages := ms }
  | .clearChat => (Jhimki.clearChat s).1

/-- A sequence of operations applied in order. -/
def run (s : ChatState) (ops : List Op) : ChatState := ops.foldl step s

/-- No operation changes the frozen `initialMessages`. -/
theorem step_initialMessages (s : ChatState) (op : Op) :
    (step s op).initialMessages = s.initialMessages := by
  cases op <;> simp [step, clearChat] <;> split <;> rfl

/-- No operation changes `isClient` after mount. -/
theorem step_isClient (s : ChatState) (op : Op) :
    (step s op).isClient = s.isClient := by
  cases op <;> simp [step, clearChat] <;> split <;> rfl

/-- The welcome flag is monotone: once set, no operation clears it. -/
theorem step_welcomeShown_mono (s : ChatState) (op : Op)
    (h : s.welcomeShown = true) : (step s op).welcomeShown = true := by
  cases op <;> simp only [step, clearChat, h] <;> split <;> simp [h]

/-- `initialMessages` is unchanged by any sequence of operations. -/
theorem run_initialMessages (s : ChatState) (ops : List Op) :
    (run s ops).initialMessages = s.initialMessages := by
  induction ops generalizing s with
  | nil => rfl
  | cons op ops ih => simp [run, List.foldl] at ih ⊢; rw [ih, step_initialMessages]

/-- `isClient` is unchanged by any sequence of operations. -/
theorem run_isClient (s : ChatState) (ops : List Op) :
    (run s ops).isClient = s.isClient := by
  induction ops generalizing s with
  | nil => rfl
  | cons op ops ih => simp [run, List.foldl] at ih ⊢; rw [ih, step_isClient]

/-- The welcome flag stays set across any sequence of operations. -/
theorem run_welcomeShown_mono (s : ChatState) (ops : List Op)
    (h : s.welcomeShown = true) : (run s ops).welcomeShown = true := by
  induction ops generalizing s with
  | nil => exact h
  | cons op ops ih =>
      simp only [run, List.foldl] at ih ⊢
      exact ih _ (step_welcomeShown_mono _ _ h)

/-- With the welcome flag set, the welcome effect is a no-op. -/
theorem ensureWelcome_noop_of_shown (s : ChatState) (now : Nat)
    (h : s.welcomeShown = true) : step s (.ensureWelcome now) = s := by
  simp [step, h]

/-- With a non-empty frozen `initialMessages`, the welcome effect is a
no-op. -/
theorem ensureWelcome_noop_of_nonempty (s : ChatState) (now : Nat)
    (h : s.initialMessages ≠ []) : step s (.ensureWelcome now) = s := by
  simp [step, h]

-- quick sanity checks on the storage adapter
example : loadMessagesFromStorage ⟨true, false, false, none⟩ = emptyRecord := by decide
example :
    loadMessagesFromStorage ⟨true, false, false, some (.notJson "not-json")⟩ = emptyRecord := by
  decide
example :
    loadMessagesFromStorage
        (saveMessagesToStorage [⟨"m1", .user, [.text "hi"]⟩] [("m1", 5)]
          ⟨true, false, false, none⟩)
      = ⟨[⟨"m1", .user, [.text "hi"]⟩], [("m1", 5)]⟩ := by
  decide

example : handleDurationChange [("a", 10)] "b" 20 = [("a", 10), ("b", 20)] := by decide
example : handleDurationChange [("a", 10), ("b", 1)] "b" 20 = [("a", 10), ("b", 20)] := by decide

/-- Lookup distributes over append on association lists. -/
theorem lookup_append (k : String) (l₁ l₂ : DurMap) :
    List.lookup k (l₁ ++ l₂)
      = ((List.lookup k l₁).orElse fun _ => List.lookup k l₂) := by
  induction l₁ with
  | nil => simp [List.lookup]
  | cons p l ih =>
      rw [List.cons_append, List.lookup, List.lookup]
      cases h : k == p.1 <;> simp [ih]

/-- Replacing every entry under `key` in place makes `key` look up the
new value, provided `key` was present. -/
theorem lookup_map_replace_self (l : DurMap) (key : String) (value : Int)
    (h : (List.lookup key l).isSome = true) :
    List.lookup key (l.map fun p => if p.1 = key then (key, value) else p)
      = some value := by
  induction l with
  | nil => simp [List.lookup] at h
  | cons p l ih =>
      obtain ⟨a, b⟩ := p
      by_cases ha : a = key
      · subst ha
        rw [List.map_cons, if_pos rfl, List.lookup]
        simp
      · have hk : (key == a) = false := by
          simp only [beq_eq_false_iff_ne, ne_eq]
          exact fun h => ha h.symm
        rw [List.lookup, hk] at h
        rw [List.map_cons, if_neg ha, List.lookup, hk]
        exact ih h

/-- Replacing every entry under `key` in place leaves the lookup of
every other key unchanged. -/
theorem lookup_map_replace_other (l : DurMap) (key : String) (value : Int)
    (k' : String) (hne : k' ≠ key) :
    List.lookup k' (l.map fun p => if p.1 = key then (key, value) else p)
      = List.lookup k' l := by
  induction l with
  | nil => simp
  | cons p l ih =>
      obtain ⟨a, b⟩ := p
      by_cases ha : a = key
      · subst ha
        have hk : (k' == a) = false := by simp [hne]
        rw [List.map_cons, if_pos rfl, List.lookup, hk, List.lookup, hk]
        exact ih
      · rw [List.map_cons, if_neg ha, List.lookup, List.lookup]
        cases hk : k' == a
        · exact ih
        · rfl

/-- Looking up the written key after a spread-set yields the written
value. -/
theorem lookup_spreadSet_self (prev : DurMap) (key : String) (value : Int) :
    List.lookup key (spreadSet prev key value) = some value := by
  unfold spreadSet
  split
  · exact lookup_map_replace_self prev key value (by assumption)
  · rw [lookup_append]
    rename_i hnone
    have h0 : List.lookup key prev = none := by
      cases h : List.lookup key prev <;> simp [h] at hnone ⊢
    simp [h0, List.lookup]

/-- A spread-set leaves the lookup of every other key unchanged. -/
theorem lookup_spreadSet_other (prev : DurMap) (key : String) (value : Int)
    (k' : String) (hne : k' ≠ key) :
    List.lookup k' (spreadSet prev key value) = List.lookup k' prev := by
  unfold spreadSet
  split
  · exact lookup_map_replace_other prev key value k' hne
  · rw [lookup_append]
    have hk : (k' == key) = false := by simp [hne]
    cases h : List.lookup k' prev <;> simp [h, List.lookup, hk]

/-- C3.  Saving any `ConversationRecord` and loading it back yields a
record structurally equal to the original: the message sequence is
preserved in order and every duration entry is preserved (in a browser
context where neither the write nor the read throws). -/
theorem save_load_roundtrip (R : StorageData) (env : StorageEnv)
    (hw : env.hasWindow = true) (hr : env.readFails = false)
    (hwf : env.writeFails = false) :
    loadMessagesFromStorage (saveMessagesToStorage R.messages R.durations env) = R := by
  cases R with
  | mk messages durations =>
      simp [loadMessagesFromStorage, saveMessagesToStorage, hw, hr, hwf]

/-- Witness for C3 at a concrete one-message record. -/
theorem save_load_roundtrip_witness :
    loadMessagesFromStorage
        (saveMessagesToStorage [⟨"m1", .assistant, [.text "hello"]⟩] [("m1", 7)]
          ⟨true, false, false, none⟩)
      = ⟨[⟨"m1", .assistant, [.text "hello"]⟩], [("m1", 7)]⟩ :=
  save_load_roundtrip ⟨[⟨"m1", .assistant, [.text "hello"]⟩], [("m1", 7)]⟩
    ⟨true, false, false, none⟩ rfl rfl rfl

/-- C4.  `loadMessagesFromStorage` is total (a Lean function, so it
never raises) and fail-soft: when the key is absent, when the
underlying read throws, or when the stored text is not valid JSON
(such as the literal text "not-json"), it returns the empty record. -/
theorem load_fail_soft (env : StorageEnv)
    (h : env.slot = none ∨ env.readFails = true
          ∨ ∃ raw, env.slot = some (.notJson raw)) :
    loadMessagesFromStorage env = emptyRecord := by
  unfold loadMessagesFromStorage
  rcases h with h | h | ⟨raw, h⟩ <;>
    cases hw : env.hasWindow <;>
      simp [h]

/-- Witness for C4 on the slot holding the literal text "not-json". -/
theorem load_fail_soft_witness :
    loadMessagesFromStorage ⟨true, false, false, some (.notJson "not-json")⟩
      = emptyRecord :=
  load_fail_soft ⟨true, false, false, some (.notJson "not-json")⟩
    (Or.inr (Or.inr ⟨"not-json", rfl⟩))

/-- C5.  When the parsed blob is missing the `messages` field or the
`durations` field, each missing field independently defaults to its
empty form while the other field's stored value is returned
unchanged. -/
theorem load_missing_field_defaults (env : StorageEnv)
    (m : List UIMessage) (d : DurMap)
    (hw : env.hasWindow = true) (hr : env.readFails = false) :
    (env.slot = some (.jsonRecord none (some d)) →
        loadMessagesFromStorage env = ⟨[], d⟩)
    ∧ (env.slot = some (.jsonRecord (some m) none) →
        loadMessagesFromStorage env = ⟨m, []⟩) := by
  constructor <;> intro h <;> simp [loadMessagesFromStorage, hw, hr, h]

/-- Witness for C5 at a blob with no `messages` field and a one-entry
`durations` field. -/
theorem load_missing_field_defaults_witness :
    (some (StoredBlob.jsonRecord none (some [("a", 5)]))
        = some (StoredBlob.jsonRecord none (some [("a", 5)])) →
      loadMessagesFromStorage
          ⟨true, false, false, some (.jsonRecord none (some [("a", 5)]))⟩
        = ⟨[], [("a", 5)]⟩)
    ∧ (some (StoredBlob.jsonRecord none (some [("a", 5)]))
        = some (StoredBlob.jsonRecord (some [⟨"m1", .user, []⟩]) none) →
      loadMessagesFromStorage
          ⟨true, false, false, some (.jsonRecord none (some [("a", 5)]))⟩
        = ⟨[⟨"m1", .user, []⟩], []⟩) :=
  load_missing_field_defaults
    ⟨true, false, false, some (.jsonRecord none (some [("a", 5)]))⟩
    [⟨"m1", .user, []⟩] [("a", 5)] rfl rfl

/-- C6.  `handleDurationChange` is an upsert: the key is bound to the
new value, every entry under a different key keeps its prior value, and
in particular from the map a ↦ 10 an update of b to 20 yields the map
a ↦ 10, b ↦ 20. -/
theorem handleDurationChange_upsert (D : DurMap) (k : String) (v : Int) :
    List.lookup k (handleDurationChange D k v) = some v
    ∧ (∀ k', k' ≠ k →
        List.lookup k' (handleDurationChange D k v) = List.lookup k' D)
    ∧ handleDurationChange [("a", 10)] "b" 20 = [("a", 10), ("b", 20)] :=
  ⟨lookup_spreadSet_self D k v,
   fun k' hne => lookup_spreadSet_other D k v k' hne,
   by decide⟩

/-- Witness for C6 at the duration map a ↦ 10 updated with b ↦ 20. -/
theorem handleDurationChange_upsert_witness :
    List.lookup "b" (handleDurationChange [("a", 10)] "b" 20) = some 20
    ∧ List.lookup "a" (handleDurationChange [("a", 10)] "b" 20)
        = List.lookup "a" [(("a" : String), (10 : Int))] :=
  ⟨(handleDurationChange_upsert [("a", 10)] "b" 20).1,
   (handleDurationChange_upsert [("a", 10)] "b" 20).2.1 "a" (by decide)⟩

/-- C7.  `clearChat` empties the transcript, empties the duration map,
persists the empty record, and signals success with the toast text
"Chat cleared"; a load performed afterwards returns exactly the empty
record (in a browser context where neither the write nor the read
throws). -/
theorem clearChat_resets (s : ChatState)
    (hw : s.env.hasWindow = true) (hwf : s.env.writeFails = false)
    (hr : s.env.readFails = false) :
    (clearChat s).1.messages = []
    ∧ (clearChat s).1.durations = []
    ∧ loadMessagesFromStorage (clearChat s).1.env = emptyRecord
    ∧ (clearChat s).2 = "Chat cleared" := by
  simp [clearChat, saveMessagesToStorage, loadMessagesFromStorage, hw, hwf, hr,
    emptyRecord]

/-- Witness for C7 at a concrete non-empty state. -/
theorem clearChat_resets_witness :
    (clearChat ⟨⟨true, false, false, none⟩, [], [⟨"m1", .user, [.text "hi"]⟩],
        [("m1", 3)], true, true⟩).1.messages = []
    ∧ (clearChat ⟨⟨true, false, false, none⟩, [], [⟨"m1", .user, [.text "hi"]⟩],
        [("m1", 3)], true, true⟩).1.durations = []
    ∧ loadMessagesFromStorage
        (clearChat ⟨⟨true, false, false, none⟩, [], [⟨"m1", .user, [.text "hi"]⟩],
          [("m1", 3)], true, true⟩).1.env = emptyRecord
    ∧ (clearChat ⟨⟨true, false, false, none⟩, [], [⟨"m1", .user, [.text "hi"]⟩],
        [("m1", 3)], true, true⟩).2 = "Chat cleared" :=
  clearChat_resets
    ⟨⟨true, false, false, none⟩, [], [⟨"m1", .user, [.text "hi"]⟩],
      [("m1", 3)], true, true⟩ rfl rfl rfl

/-- When the render-time load produced an empty message list, the first
run of the welcome effect fires: it replaces the transcript with the
single welcome message, saves it with an empty duration map, and sets
the flag. -/
theorem ensureWelcome_fires (env : StorageEnv) (now : Nat)
    (hw : env.hasWindow = true)
    (hempty : (loadMessagesFromStorage env).messages = []) :
    step (mount env) (.ensureWelcome now)
      = { mount env with
            messages := [welcomeMessage now]
            env := saveMessagesToStorage [welcomeMessage now] [] env
            welcomeShown := true } := by
  have hinit : (mount env).initialMessages = [] := by simp [mount, hw, hempty]
  have henv : (mount env).env = env := rfl
  simp only [step]
  rw [if_pos ⟨rfl, hinit, rfl⟩, henv]

/-- C1.  When the loaded persisted record has an empty messages list,
the welcome effect sets the transcript to exactly one assistant message
whose single text part is the fixed welcome string, immediately
persists that transcript (with an empty duration map), and sets the
one-shot flag; afterwards, any further run of the welcome effect in the
same process lifetime — after any sequence of operations — leaves the
state unchanged. -/
theorem welcome_once (env : StorageEnv) (now : Nat)
    (hw : env.hasWindow = true) (hr : env.readFails = false)
    (hwf : env.writeFails = false)
    (hempty : (loadMessagesFromStorage env).messages = []) :
    (step (mount env) (.ensureWelcome now)).messages
        = [{ id := "welcome-" ++ toString now, role := .assistant,
             parts := [.text WELCOME_MESSAGE] }]
    ∧ loadMessagesFromStorage (step (mount env) (.ensureWelcome now)).env
        = { messages := [welcomeMessage now], durations := [] }
    ∧ (step (mount env) (.ensureWelcome now)).welcomeShown = true
    ∧ ∀ ops now',
        step (run (step (mount env) (.ensureWelcome now)) ops) (.ensureWelcome now')
          = run (step (mount env) (.ensureWelcome now)) ops := by
  have hstep := ensureWelcome_fires env now hw hempty
  refine ⟨?_, ?_, ?_, ?_⟩
  · rw [hstep]; rfl
  · rw [hstep]
    simp [saveMessagesToStorage, loadMessagesFromStorage, hw, hr, hwf]
  · rw [hstep]
  · intro ops now'
    refine ensureWelcome_noop_of_shown _ now' (run_welcomeShown_mono _ ops ?_)
    rw [hstep]

/-- Witness for C1: first-ever visit (key absent), welcome effect at
time 0. -/
theorem welcome_once_witness :
    (step (mount ⟨true, false, false, none⟩) (.ensureWelcome 0)).messages
        = [{ id := "welcome-" ++ toString 0, role := .assistant,
             parts := [.text WELCOME_MESSAGE] }]
    ∧ loadMessagesFromStorage
          (step (mount ⟨true, false, false, none⟩) (.ensureWelcome 0)).env
        = { messages := [welcomeMessage 0], durations := [] }
    ∧ (step (mount ⟨true, false, false, none⟩) (.ensureWelcome 0)).welcomeShown = true
    ∧ ∀ ops now',
        step (run (step (mount ⟨true, false, false, none⟩) (.ensureWelcome 0)) ops)
            (.ensureWelcome now')
          = run (step (mount ⟨true, false, false, none⟩) (.ensureWelcome 0)) ops :=
  welcome_once ⟨true, false, false, none⟩ 0 rfl rfl rfl rfl

/-- C2.  When the loaded persisted record has a non-empty messages
list, the restored transcript seeds the session unchanged and the
welcome effect never fires in that process lifetime: after any sequence
of operations, a run of the welcome effect leaves the state
unchanged. -/
theorem welcome_skip (env : StorageEnv)
    (hne : (loadMessagesFromStorage env).messages ≠ []) :
    (mount env).messages = (loadMessagesFromStorage env).messages
    ∧ ∀ ops now,
        step (run (mount env) ops) (.ensureWelcome now) = run (mount env) ops := by
  have hw : env.hasWindow = true := by
    cases hb : env.hasWindow
    · exact absurd (by simp [loadMessagesFromStorage, hb, emptyRecord]) hne
    · rfl
  have hinit : (mount env).initialMessages = (loadMessagesFromStorage env).messages := by
    simp [mount, hw]
  refine ⟨by simp [mount, hw], ?_⟩
  intro ops now
  apply ensureWelcome_noop_of_nonempty
  rw [run_initialMessages, hinit]
  exact hne

/-- Witness for C2 at a one-message restored record. -/
theorem welcome_skip_witness :
    (mount ⟨true, false, false,
        some (.jsonRecord (some [⟨"m1", .user, [.text "hi"]⟩]) none)⟩).messages
      = (loadMessagesFromStorage ⟨true, false, false,
          some (.jsonRecord (some [⟨"m1", .user, [.text "hi"]⟩]) none)⟩).messages
    ∧ ∀ ops now,
        step
            (run (mount ⟨true, false, false,
              some (.jsonRecord (some [⟨"m1", .user, [.text "hi"]⟩]) none)⟩) ops)
            (.ensureWelcome now)
          = run (mount ⟨true, false, false,
              some (.jsonRecord (some [⟨"m1", .user, [.text "hi"]⟩]) none)⟩) ops :=
  welcome_skip ⟨true, false, false,
    some (.jsonRecord (some [⟨"m1", .user, [.text "hi"]⟩]) none)⟩ (by decide)

/-- C8.  `clearChat` never changes the welcome flag, and once the flag
is set (welcome injected), no later sequence of operations — including
resets — is followed by a second welcome injection: every further run
of the welcome effect leaves the state unchanged. -/
theorem reset_preserves_welcome_flag (s : ChatState) :
    (step s .clearChat).welcomeShown = s.welcomeShown
    ∧ (s.welcomeShown = true →
        ∀ ops now, step (run s ops) (.ensureWelcome now) = run s ops) := by
  refine ⟨by simp [step, clearChat], ?_⟩
  intro h ops now
  exact ensureWelcome_noop_of_shown _ now (run_welcomeShown_mono s ops h)

/-- Witness for C8 at a state whose welcome flag is set. -/
theorem reset_preserves_welcome_flag_witness :
    (step ⟨⟨true, false, false, none⟩, [], [welcomeMessage 0], [("a", 1)], true, true⟩
        .clearChat).welcomeShown = true
    ∧ ∀ ops now,
        step
            (run ⟨⟨true, false, false, none⟩, [], [welcomeMessage 0], [("a", 1)],
              true, true⟩ ops)
            (.ensureWelcome now)
          = run ⟨⟨true, false, false, none⟩, [], [welcomeMessage 0], [("a", 1)],
              true, true⟩ ops :=
  ⟨(reset_preserves_welcome_flag
      ⟨⟨true, false, false, none⟩, [], [welcomeMessage 0], [("a", 1)], true, true⟩).1,
   (reset_preserves_welcome_flag
      ⟨⟨true, false, false, none⟩, [], [welcomeMessage 0], [("a", 1)], true, true⟩).2 rfl⟩

/-- C10.  When the stored blob has an empty messages list but a
non-empty durations map, the restored durations reach the in-memory
state, yet the save performed inside the welcome effect writes the
single welcome message with an empty durations map, discarding the
restored duration entries in that write. -/
theorem welcome_save_discards_durations (env : StorageEnv) (d : DurMap) (now : Nat)
    (hw : env.hasWindow = true) (hr : env.readFails = false)
    (hwf : env.writeFails = false) (_hd : d ≠ [])
    (hslot : env.slot = some (.jsonRecord (some []) (some d))) :
    (mount env).durations = d
    ∧ (step (mount env) (.ensureWelcome now)).env.slot
        = some (.jsonRecord (some [welcomeMessage now]) (some []))
    ∧ loadMessagesFromStorage (step (mount env) (.ensureWelcome now)).env
        = { messages := [welcomeMessage now], durations := [] } := by
  have hload : loadMessagesFromStorage env = ⟨[], d⟩ := by
    simp [loadMessagesFromStorage, hw, hr, hslot]
  have hstep := ensureWelcome_fires env now hw (by rw [hload])
  refine ⟨by simp [mount, hw, hload], ?_, ?_⟩
  · rw [hstep]
    simp [saveMessagesToStorage, hw, hwf]
  · rw [hstep]
    simp [saveMessagesToStorage, loadMessagesFromStorage, hw, hr, hwf]

/-- Witness for C10 at a blob with no messages and one stored
duration. -/
theorem welcome_save_discards_durations_witness :
    (mount ⟨true, false, false,
        some (.jsonRecord (some []) (some [("a", 10)]))⟩).durations = [("a", 10)]
    ∧ (step (mount ⟨true, false, false,
          some (.jsonRecord (some []) (some [("a", 10)]))⟩) (.ensureWelcome 5)).env.slot
        = some (.jsonRecord (some [welcomeMessage 5]) (some []))
    ∧ loadMessagesFromStorage
          (step (mount ⟨true, false, false,
            some (.jsonRecord (some []) (some [("a", 10)]))⟩) (.ensureWelcome 5)).env
        = { messages := [welcomeMessage 5], durations := [] } :=
  welcome_save_discards_durations
    ⟨true, false, false, some (.jsonRecord (some []) (some [("a", 10)]))⟩
    [("a", 10)] 5 rfl rfl rfl (by decide) rfl

end Jhimki
